import Mathlib

/-!
Verification development for the capability-aware FreeRTOS object-lifecycle
layer in `components/freertos/esp_additions/idf_additions.c`.

The C file is shallowly embedded: each wrapper becomes a Lean function over
an explicit heap state, parametrised by oracles for the outcomes of the
external calls (allocation success, constructor success, introspection
success, scheduler observations).  Each wrapper additionally records the
sequence of externally visible calls it performs (allocations, frees,
constructor and destructor invocations, assertions), so that ordering
properties of the C control flow can be stated as facts about the recorded
event list.
-/

namespace IdfAdditions

/-- A C pointer: either `NULL` or a heap block identifier. -/
inductive Ptr where
  | null
  | block (id : Nat)
deriving DecidableEq, Repr

/-- The allocator state: the list of live block identifiers together with the
next fresh identifier.  `malloc` style calls cons a fresh block, `free`
removes it; `free` of `NULL` is a no-op, exactly as in C. -/
structure Heap where
  live : List Nat
  next : Nat
deriving DecidableEq, Repr

/-- The empty heap. -/
def Heap.empty : Heap := ⟨[], 0⟩

/-- One allocation attempt.  The boolean oracle `ok` models whether the
underlying allocator finds memory; on failure the C allocator returns `NULL`
and the heap is unchanged. -/
def Heap.alloc (h : Heap) (ok : Bool) : Ptr × Heap :=
  if ok then (Ptr.block h.next, ⟨h.next :: h.live, h.next + 1⟩)
  else (Ptr.null, h)

/-- Freeing a pointer.  `free(NULL)` does nothing, matching both
`heap_caps_free` and `vPortFree`. -/
def Heap.free (h : Heap) (p : Ptr) : Heap :=
  match p with
  | Ptr.null => h
  | Ptr.block i => ⟨h.live.erase i, h.next⟩

/-- The static constructor invoked by a creation wrapper, one per kind,
following the dispatch in the C source. -/
inductive ObjCtor where
  | task | queue | mutex | counting | binary | recMutex
  | streamBuf | messageBuf | eventGroup
deriving DecidableEq, Repr

/-- The kernel destructor invoked by a deletion wrapper.  Each constructor
names the C API that the source literally calls. -/
inductive ObjDtor where
  | taskDelete          -- vTaskDelete
  | queueDelete         -- vQueueDelete
  | semaphoreDelete     -- vSemaphoreDelete (a macro alias of vQueueDelete)
  | streamBufferDelete  -- vStreamBufferDelete (never called by this file)
  | messageBufferDelete -- vMessageBufferDelete
  | eventGroupDelete    -- vEventGroupDelete
deriving DecidableEq, Repr

/-- Externally visible calls made by the create/delete wrappers. -/
inductive Ev where
  | allocInternal (size : Nat)           -- pvPortMalloc: ignores any caps mask
  | allocCaps (size : Nat) (caps : Nat)  -- heap_caps_malloc under a caps mask
  | freeInternal (p : Ptr)               -- vPortFree
  | freeCaps (p : Ptr)                   -- heap_caps_free
  | construct (c : ObjCtor)              -- a static creation API call
  | introspect                           -- an xXXXGetStaticBuffers call
  | assertFail                           -- a failed configASSERT (aborts)
  | destroy (d : ObjDtor)                -- a kernel deletion API call
deriving DecidableEq, Repr

/-- Whether an event is a `heap_caps_malloc` under the given caps mask. -/
def Ev.isAllocWithCaps (caps : Nat) : Ev → Bool
  | Ev.allocCaps _ c => c = caps
  | _ => false

/-- Whether an event is an allocation of either kind. -/
def Ev.isAlloc : Ev → Bool
  | Ev.allocInternal _ => true
  | Ev.allocCaps _ _ => true
  | _ => false

/-- Result of a creation wrapper: whether a live handle was produced
(`pdPASS` or a non-`NULL` handle), the final heap, and the recorded calls. -/
structure COut where
  ok : Bool
  heap : Heap
  evs : List Ev
deriving DecidableEq, Repr

/-- Stand-in for the platform constant `sizeof( StaticTask_t )`; the layer
never inspects the value. -/
def sizeofStaticTask : Nat := 84

/-- Stand-in for `sizeof( StaticQueue_t )`. -/
def sizeofStaticQueue : Nat := 80

/-- Stand-in for `sizeof( StaticSemaphore_t )`. -/
def sizeofStaticSemaphore : Nat := 80

/-- Stand-in for `sizeof( StaticStreamBuffer_t )`. -/
def sizeofStaticStreamBuffer : Nat := 56

/-- Stand-in for `sizeof( StaticEventGroup_t )`. -/
def sizeofStaticEventGroup : Nat := 32

/-- Embedding of `xTaskCreatePinnedToCoreWithCaps`.  The TCB is allocated
with `pvPortMalloc` (the source comments that the TCB must be in internal
memory), the stack with `heap_caps_malloc( usStackDepth, uxMemoryCaps )`.
If either pointer is `NULL`, or the static create call returns `NULL`, the
`err` label frees the stack with `heap_caps_free` and the TCB with
`vPortFree` and the wrapper returns `pdFAIL`.  The oracles `tcbOk`,
`stackOk`, `ctorOk` model the outcomes of the two allocations and of
`xTaskCreateStaticPinnedToCore`; the out-parameter `pvCreatedTask` is not
modelled because no claim concerns it. -/
def xTaskCreatePinnedToCoreWithCaps (usStackDepth uxMemoryCaps : Nat)
    (tcbOk stackOk ctorOk : Bool) (h : Heap) : COut :=
  let r1 := h.alloc tcbOk
  let pxTaskBuffer := r1.1
  let r2 := r1.2.alloc stackOk
  let pxStack := r2.1
  let h2 := r2.2
  let allocEvs : List Ev :=
    [Ev.allocInternal sizeofStaticTask, Ev.allocCaps usStackDepth uxMemoryCaps]
  if pxTaskBuffer = Ptr.null ∨ pxStack = Ptr.null then
    ⟨false, (h2.free pxStack).free pxTaskBuffer,
      allocEvs ++ [Ev.freeCaps pxStack, Ev.freeInternal pxTaskBuffer]⟩
  else if ctorOk then
    ⟨true, h2, allocEvs ++ [Ev.construct ObjCtor.task]⟩
  else
    ⟨false, (h2.free pxStack).free pxTaskBuffer,
      allocEvs ++ [Ev.construct ObjCtor.task,
        Ev.freeCaps pxStack, Ev.freeInternal pxTaskBuffer]⟩

/-- Embedding of `xQueueCreateWithCaps`.  The queue control block is
allocated with `heap_caps_malloc( sizeof( StaticQueue_t ), uxMemoryCaps )`;
when `uxItemSize == 0` the storage pointer is set to `NULL` without any
allocation, otherwise the storage is allocated with
`heap_caps_malloc( uxQueueLength * uxItemSize, uxMemoryCaps )`.  The guard,
the `err` label and the free order follow the source exactly. -/
def xQueueCreateWithCaps (uxQueueLength uxItemSize uxMemoryCaps : Nat)
    (cbOk storOk ctorOk : Bool) (h : Heap) : COut :=
  let r1 := h.alloc cbOk
  let pxQueueBuffer := r1.1
  let h1 := r1.2
  let e1 := Ev.allocCaps sizeofStaticQueue uxMemoryCaps
  let r2 :=
    if uxItemSize = 0 then ((Ptr.null, h1), ([] : List Ev))
    else
      let a := h1.alloc storOk
      ((a.1, a.2), [Ev.allocCaps (uxQueueLength * uxItemSize) uxMemoryCaps])
  let pucQueueStorageBuffer := r2.1.1
  let h2 := r2.1.2
  let storEvs := r2.2
  if pxQueueBuffer = Ptr.null ∨ (0 < uxItemSize ∧ pucQueueStorageBuffer = Ptr.null) then
    ⟨false, (h2.free pucQueueStorageBuffer).free pxQueueBuffer,
      e1 :: storEvs ++ [Ev.freeCaps pucQueueStorageBuffer, Ev.freeCaps pxQueueBuffer]⟩
  else if ctorOk then
    ⟨true, h2, e1 :: storEvs ++ [Ev.construct ObjCtor.queue]⟩
  else
    ⟨false, (h2.free pucQueueStorageBuffer).free pxQueueBuffer,
      e1 :: storEvs ++ [Ev.construct ObjCtor.queue,
        Ev.freeCaps pucQueueStorageBuffer, Ev.freeCaps pxQueueBuffer]⟩

/-- FreeRTOS queue-type discriminant for mutexes. -/
def queueQUEUE_TYPE_MUTEX : Nat := 1

/-- FreeRTOS queue-type discriminant for counting semaphores. -/
def queueQUEUE_TYPE_COUNTING_SEMAPHORE : Nat := 2

/-- FreeRTOS queue-type discriminant for binary semaphores. -/
def queueQUEUE_TYPE_BINARY_SEMAPHORE : Nat := 3

/-- FreeRTOS queue-type discriminant for recursive mutexes. -/
def queueQUEUE_TYPE_RECURSIVE_MUTEX : Nat := 4

/-- The static constructor chosen by the `if`/`else if` chain of
`xSemaphoreCreateGenericWithCaps` on `ucQueueType`; the final `else` is the
recursive mutex. -/
def semaphoreCtorFor (ucQueueType : Nat) : ObjCtor :=
  if ucQueueType = queueQUEUE_TYPE_MUTEX then ObjCtor.mutex
  else if ucQueueType = queueQUEUE_TYPE_COUNTING_SEMAPHORE then ObjCtor.counting
  else if ucQueueType = queueQUEUE_TYPE_BINARY_SEMAPHORE then ObjCtor.binary
  else ObjCtor.recMutex

/-- Embedding of `xSemaphoreCreateGenericWithCaps`.  A single allocation
(`heap_caps_malloc( sizeof( StaticSemaphore_t ), uxMemoryCaps )`); on
allocation failure the wrapper returns `NULL` immediately; on constructor
failure it frees the buffer and returns the `NULL` handle. -/
def xSemaphoreCreateGenericWithCaps (ucQueueType uxMemoryCaps : Nat)
    (cbOk ctorOk : Bool) (h : Heap) : COut :=
  let r1 := h.alloc cbOk
  let pxSemaphoreBuffer := r1.1
  let h1 := r1.2
  let e1 := Ev.allocCaps sizeofStaticSemaphore uxMemoryCaps
  if pxSemaphoreBuffer = Ptr.null then
    ⟨false, h1, [e1]⟩
  else
    let c := semaphoreCtorFor ucQueueType
    if ctorOk then
      ⟨true, h1, [e1, Ev.construct c]⟩
    else
      ⟨false, h1.free pxSemaphoreBuffer,
        [e1, Ev.construct c, Ev.freeCaps pxSemaphoreBuffer]⟩

/-- Embedding of `xStreamBufferGenericCreateWithCaps`.  Both the static
stream-buffer structure and the storage area are allocated with
`heap_caps_malloc` under `uxMemoryCaps`; the constructor is
`xMessageBufferCreateStatic` when `xIsMessageBuffer == pdTRUE` and
`xStreamBufferCreateStatic` otherwise; the `err` label frees the storage
area first and then the static structure. -/
def xStreamBufferGenericCreateWithCaps (xBufferSizeBytes uxMemoryCaps : Nat)
    (xIsMessageBuffer : Bool) (cbOk storOk ctorOk : Bool) (h : Heap) : COut :=
  let r1 := h.alloc cbOk
  let pxStaticStreamBuffer := r1.1
  let r2 := r1.2.alloc storOk
  let pucStreamBufferStorageArea := r2.1
  let h2 := r2.2
  let allocEvs : List Ev :=
    [Ev.allocCaps sizeofStaticStreamBuffer uxMemoryCaps,
     Ev.allocCaps xBufferSizeBytes uxMemoryCaps]
  if pxStaticStreamBuffer = Ptr.null ∨ pucStreamBufferStorageArea = Ptr.null then
    ⟨false, (h2.free pucStreamBufferStorageArea).free pxStaticStreamBuffer,
      allocEvs ++ [Ev.freeCaps pucStreamBufferStorageArea,
        Ev.freeCaps pxStaticStreamBuffer]⟩
  else
    let c := if xIsMessageBuffer then ObjCtor.messageBuf else ObjCtor.streamBuf
    if ctorOk then
      ⟨true, h2, allocEvs ++ [Ev.construct c]⟩
    else
      ⟨false, (h2.free pucStreamBufferStorageArea).free pxStaticStreamBuffer,
        allocEvs ++ [Ev.construct c, Ev.freeCaps pucStreamBufferStorageArea,
          Ev.freeCaps pxStaticStreamBuffer]⟩

/-- Embedding of `xEventGroupCreateWithCaps`.  A single allocation under the
mask; on constructor failure the buffer is freed and the `NULL` handle
returned. -/
def xEventGroupCreateWithCaps (uxMemoryCaps : Nat)
    (cbOk ctorOk : Bool) (h : Heap) : COut :=
  let r1 := h.alloc cbOk
  let pxEventGroupBuffer := r1.1
  let h1 := r1.2
  let e1 := Ev.allocCaps sizeofStaticEventGroup uxMemoryCaps
  if pxEventGroupBuffer = Ptr.null then
    ⟨false, h1, [e1]⟩
  else if ctorOk then
    ⟨true, h1, [e1, Ev.construct ObjCtor.eventGroup]⟩
  else
    ⟨false, h1.free pxEventGroupBuffer,
      [e1, Ev.construct ObjCtor.eventGroup, Ev.freeCaps pxEventGroupBuffer]⟩

/-! ## Deletion wrappers (queue, semaphore, stream/message buffer, event group)

Each deletion wrapper first introspects the handle via the kernel
`GetStaticBuffers` call, `configASSERT`s that the call succeeded (a failed
`configASSERT` aborts the process), then destroys the kernel object, then
frees the recovered buffers.  The introspection outcome and the recovered
pointers are oracle parameters; the wrapper returns `none` when it aborted
and otherwise the final heap, together with the recorded calls. -/

/-- Embedding of `vQueueDeleteWithCaps`: introspect via
`xQueueGetStaticBuffers`, assert success, `vQueueDelete`, then free the
control block and the storage buffer in that order. -/
def vQueueDeleteWithCaps (introOk : Bool)
    (pucQueueStorageBuffer pxQueueBuffer : Ptr) (h : Heap) :
    Option Heap × List Ev :=
  if introOk then
    (some ((h.free pxQueueBuffer).free pucQueueStorageBuffer),
      [Ev.introspect, Ev.destroy ObjDtor.queueDelete,
       Ev.freeCaps pxQueueBuffer, Ev.freeCaps pucQueueStorageBuffer])
  else
    (none, [Ev.introspect, Ev.assertFail])

/-- Embedding of `vSemaphoreDeleteWithCaps`: introspect via
`xSemaphoreGetStaticBuffer`, assert success, `vSemaphoreDelete`, then free
the single buffer. -/
def vSemaphoreDeleteWithCaps (introOk : Bool)
    (pxSemaphoreBuffer : Ptr) (h : Heap) : Option Heap × List Ev :=
  if introOk then
    (some (h.free pxSemaphoreBuffer),
      [Ev.introspect, Ev.destroy ObjDtor.semaphoreDelete,
       Ev.freeCaps pxSemaphoreBuffer])
  else
    (none, [Ev.introspect, Ev.assertFail])

/-- Embedding of `vStreamBufferGenericDeleteWithCaps`: introspect via
`xMessageBufferGetStaticBuffers` or `xStreamBufferGetStaticBuffers`
according to `xIsMessageBuffer`, assert success, then destroy the object —
the source calls `vMessageBufferDelete` in the message-buffer branch and
`vSemaphoreDelete( xStreamBuffer )` in the stream-buffer branch — and
finally free the static structure and the storage area. -/
def vStreamBufferGenericDeleteWithCaps (xIsMessageBuffer : Bool)
    (introOk : Bool) (pucStreamBufferStorageArea pxStaticStreamBuffer : Ptr)
    (h : Heap) : Option Heap × List Ev :=
  if introOk then
    let d := if xIsMessageBuffer then ObjDtor.messageBufferDelete
             else ObjDtor.semaphoreDelete
    (some ((h.free pxStaticStreamBuffer).free pucStreamBufferStorageArea),
      [Ev.introspect, Ev.destroy d, Ev.freeCaps pxStaticStreamBuffer,
       Ev.freeCaps pucStreamBufferStorageArea])
  else
    (none, [Ev.introspect, Ev.assertFail])

/-- Embedding of `vEventGroupDeleteWithCaps`: introspect via
`xEventGroupGetStaticBuffer`, assert success, `vEventGroupDelete`, then free
the single buffer. -/
def vEventGroupDeleteWithCaps (introOk : Bool)
    (pxEventGroupBuffer : Ptr) (h : Heap) : Option Heap × List Ev :=
  if introOk then
    (some (h.free pxEventGroupBuffer),
      [Ev.introspect, Ev.destroy ObjDtor.eventGroupDelete,
       Ev.freeCaps pxEventGroupBuffer])
  else
    (none, [Ev.introspect, Ev.assertFail])

/-! ## The task-deletion state machine (`vTaskDeleteWithCaps`) -/

/-- The FreeRTOS `eTaskState` values returned by `eTaskGetState`. -/
inductive TaskState where
  | eRunning | eReady | eBlocked | eSuspended | eDeleted | eInvalid
deriving DecidableEq, Repr

/-- Externally visible steps of the task-deletion procedure. -/
inductive TEv where
  | assertNotISR          -- vPortAssertIfInISR()
  | assertCurrentNonNull  -- configASSERT( xCurrentTaskHandle != NULL )
  | readState             -- an eTaskGetState( xTaskToDelete ) call
  | suspendTarget         -- vTaskSuspend
  | yieldCore             -- portYIELD_WITHIN_API()
  | createCleanupTask     -- xTaskCreatePinnedToCore( prvTaskDeleteWithCapsTask, ... )
  | getStaticBuffers      -- xTaskGetStaticBuffers
  | taskDestroy           -- vTaskDelete
  | freeStack             -- heap_caps_free( puxStackBuffer )
  | freeTCB               -- vPortFree( pxTaskBuffer )
  | abortProc             -- abort() or a failed configASSERT
deriving DecidableEq, Repr

/-- How a call to the deletion procedure ends for the calling context. -/
inductive DOutcome where
  | returned     -- returned normally to the caller
  | neverReturns -- the caller suspended itself and is reclaimed externally
  | aborted      -- the process aborted
  | stuck        -- the spin-wait did not exit within the modelled fuel
deriving DecidableEq, Repr

/-- Result of one call to the deletion procedure. -/
structure TaskDelResult where
  outcome : DOutcome
  events : List TEv
deriving DecidableEq, Repr

/-- Environment of one `vTaskDeleteWithCaps` call.  `obs i` is the value the
i-th `eTaskGetState( xTaskToDelete )` call returns (the scheduler may change
the state between reads); the remaining fields are oracles for the other
external calls.  `fuel` bounds how many spin-wait reads the model unfolds;
the C loop is unbounded. -/
structure TaskDelEnv where
  inISR : Bool             -- executing in an interrupt context
  current : Option Nat     -- xTaskGetCurrentTaskHandle()
  target : Option Nat      -- the xTaskToDelete argument (none is NULL)
  cores : Nat              -- configNUM_CORES
  obs : Nat → TaskState
  createOk : Bool          -- xTaskCreatePinnedToCore result was not pdFAIL
  suspendEffective : Bool  -- the self-suspension in State A takes effect
  introspectOk : Bool      -- xTaskGetStaticBuffers returned pdTRUE
  stackBuf : Ptr           -- puxStackBuffer recovered by introspection
  tcbBuf : Ptr             -- pxTaskBuffer recovered by introspection
  fuel : Nat               -- model bound on unfolded spin-wait reads

/-- The spin-wait of the cross-core path: repeatedly read the target state
and yield while it is `eRunning`.  Returns the index of the first
observation that is not `eRunning` (or `none` when `fuel` runs out) and the
recorded reads and yields. -/
def spinLoop (obs : Nat → TaskState) (i : Nat) : Nat → Option Nat × List TEv
  | 0 => (none, [])
  | fuel + 1 =>
    if obs i = TaskState.eRunning then
      let r := spinLoop obs (i + 1) fuel
      (r.1, TEv.readState :: TEv.yieldCore :: r.2)
    else
      (some i, [TEv.readState])

/-- The `readState` that the multi-core State-B branch condition performed
before control fell through to State C; absent on single-core builds, where
the preprocessor removes the whole `else if`. -/
def stateCReadEvs (cores : Nat) : List TEv :=
  if 1 < cores then [TEv.readState] else []

/-- The three deletion paths of `vTaskDeleteWithCaps`. -/
inductive DeletePath where
  | selfDelete | crossCore | stopped
deriving DecidableEq, Repr

/-- The branch selection of `vTaskDeleteWithCaps`, transcribed from the
`if` / `#if configNUM_CORES > 1` `else if` / `else` chain: State A when the
target is `NULL` or the calling task, State B when (on a multi-core build)
the target is currently `eRunning`, State C otherwise. -/
def selectDeletePath (target current : Option Nat) (state0 : TaskState)
    (cores : Nat) : DeletePath :=
  if target = none ∨ target = current then DeletePath.selfDelete
  else if 1 < cores ∧ state0 = TaskState.eRunning then DeletePath.crossCore
  else DeletePath.stopped

/-- Embedding of `vTaskDeleteWithCaps`.  The procedure asserts it is not in
an interrupt context, asserts the current task handle is not `NULL`, and
then dispatches on the three deletion states.  State A creates the clean-up
task (aborting on failure) and suspends the caller, aborting if control
ever comes back.  State B (multi-core only) suspends the target, spin-waits
with yields until the target is no longer `eRunning`, then introspects
(asserting success and non-`NULL` buffers), destroys the task and frees the
stack and the TCB.  State C asserts the target is not `eRunning`, then
introspects, destroys and frees the same way. -/
def vTaskDeleteWithCaps (env : TaskDelEnv) : TaskDelResult :=
  if env.inISR then
    ⟨DOutcome.aborted, [TEv.assertNotISR, TEv.abortProc]⟩
  else if env.current = none then
    ⟨DOutcome.aborted,
      [TEv.assertNotISR, TEv.assertCurrentNonNull, TEv.abortProc]⟩
  else
    let pre : List TEv := [TEv.assertNotISR, TEv.assertCurrentNonNull]
    if env.target = none ∨ env.target = env.current then
      -- State A: self-delete
      if env.createOk then
        if env.suspendEffective then
          ⟨DOutcome.neverReturns,
            pre ++ [TEv.createCleanupTask, TEv.suspendTarget]⟩
        else
          ⟨DOutcome.aborted,
            pre ++ [TEv.createCleanupTask, TEv.suspendTarget, TEv.abortProc]⟩
      else
        ⟨DOutcome.aborted, pre ++ [TEv.createCleanupTask, TEv.abortProc]⟩
    else if 1 < env.cores ∧ env.obs 0 = TaskState.eRunning then
      -- State B: the target is running on another core
      let spun := spinLoop env.obs 1 env.fuel
      match spun.1 with
      | none =>
        ⟨DOutcome.stuck,
          pre ++ [TEv.readState, TEv.suspendTarget] ++ spun.2⟩
      | some _ =>
        if env.introspectOk = true ∧ env.stackBuf ≠ Ptr.null ∧ env.tcbBuf ≠ Ptr.null then
          ⟨DOutcome.returned,
            pre ++ [TEv.readState, TEv.suspendTarget] ++ spun.2
              ++ [TEv.getStaticBuffers, TEv.taskDestroy,
                  TEv.freeStack, TEv.freeTCB]⟩
        else
          ⟨DOutcome.aborted,
            pre ++ [TEv.readState, TEv.suspendTarget] ++ spun.2
              ++ [TEv.getStaticBuffers, TEv.abortProc]⟩
    else
      -- State C: the target is not running
      let j : Nat := if 1 < env.cores then 1 else 0
      let reads := stateCReadEvs env.cores
      if env.obs j = TaskState.eRunning then
        ⟨DOutcome.aborted, pre ++ reads ++ [TEv.readState, TEv.abortProc]⟩
      else if env.introspectOk = true ∧ env.stackBuf ≠ Ptr.null ∧ env.tcbBuf ≠ Ptr.null then
        ⟨DOutcome.returned,
          pre ++ reads ++ [TEv.readState, TEv.getStaticBuffers,
            TEv.taskDestroy, TEv.freeStack, TEv.freeTCB]⟩
      else
        ⟨DOutcome.aborted,
          pre ++ reads ++ [TEv.readState, TEv.getStaticBuffers, TEv.abortProc]⟩

/-- Embedding of the clean-up task body `prvTaskDeleteWithCapsTask`: it
asserts the task to delete is no longer running, calls
`vTaskDeleteWithCaps` on it (executing with its own handle as the current
task and consuming the subsequent state observations), and finally deletes
itself with `vTaskDelete( NULL )`. -/
def prvTaskDeleteWithCapsTask (auxHandle : Option Nat) (env : TaskDelEnv) :
    TaskDelResult :=
  if env.obs 0 = TaskState.eRunning then
    ⟨DOutcome.aborted, [TEv.readState, TEv.abortProc]⟩
  else
    let inner := vTaskDeleteWithCaps
      { env with current := auxHandle, obs := fun i => env.obs (i + 1) }
    match inner.outcome with
    | DOutcome.returned =>
      ⟨DOutcome.neverReturns, TEv.readState :: inner.events ++ [TEv.taskDestroy]⟩
    | o => ⟨o, TEv.readState :: inner.events⟩

/-- Task-deletion events the entry assertions must precede: run-state
reads, suspensions, destruction and frees. -/
def dangerousT : TEv → Bool
  | TEv.readState => true
  | TEv.suspendTarget => true
  | TEv.taskDestroy => true
  | TEv.freeStack => true
  | TEv.freeTCB => true
  | _ => false

/-! ## Theorems -/

/-- Every successful exit of the spin-wait returns an observation index at
which the target was seen not `eRunning`, and the loop performs only state
reads and yields. -/
theorem spinLoop_exit_not_running :
    ∀ (fuel i k : Nat) (obs : Nat → TaskState) (evs : List TEv),
      spinLoop obs i fuel = (some k, evs) →
      obs k ≠ TaskState.eRunning ∧ ∀ e ∈ evs, e = TEv.readState ∨ e = TEv.yieldCore := by
  intro fuel
  induction fuel with
  | zero =>
    intro i k obs evs hyp
    simp [spinLoop] at hyp
  | succ n ih =>
    intro i k obs evs hyp
    unfold spinLoop at hyp
    by_cases hrun : obs i = TaskState.eRunning
    · simp only [hrun, if_pos rfl] at hyp
      obtain ⟨h1, h2⟩ := Prod.mk.injEq .. ▸ hyp
      have hr : spinLoop obs (i + 1) n = (some k, (spinLoop obs (i + 1) n).2) := by
        rw [← h1]
      have hih := ih (i + 1) k obs (spinLoop obs (i + 1) n).2 hr
      refine ⟨hih.1, ?_⟩
      intro e he
      rw [← h2] at he
      simp at he
      rcases he with h | h | h
      · exact Or.inl h
      · exact Or.inr h
      · exact hih.2 e h
    · simp only [hrun, if_neg hrun] at hyp
      obtain ⟨h1, h2⟩ := Prod.mk.injEq .. ▸ hyp
      have hik : i = k := Option.some.inj h1
      refine ⟨?_, ?_⟩
      · rw [← hik]; exact hrun
      · intro e he
        rw [← h2] at he
        simp at he
        exact Or.inl he

/-- Claim C1 counterexample: in `xTaskCreatePinnedToCoreWithCaps` the TCB is
allocated with `pvPortMalloc`, which ignores the caller-supplied capability
mask.  Concretely, with mask 2 and every external call succeeding, the first
recorded allocation (the TCB) is an internal-memory allocation and is not a
`heap_caps_malloc` under the mask; only the stack allocation uses the mask. -/
theorem taskCreate_tcb_ignores_caps_mask :
    (xTaskCreatePinnedToCoreWithCaps 2048 2 true true true Heap.empty).evs =
      [Ev.allocInternal sizeofStaticTask, Ev.allocCaps 2048 2,
       Ev.construct ObjCtor.task] ∧
    Ev.isAllocWithCaps 2 (Ev.allocInternal sizeofStaticTask) = false := by
  decide

/-- Claim C1 (amended): for the queue, semaphore, stream/message-buffer and
event-group wrappers the control-block buffer is allocated under the
caller-supplied capability mask, but for task creation the TCB is allocated
with `pvPortMalloc`, which ignores the mask — only the stack allocation is
directed by the mask. -/
theorem controlBlock_alloc_mask_usage :
    ∀ (d len isz qt bsz caps : Nat) (msg b1 b2 b3 : Bool) (h : Heap),
      ((xTaskCreatePinnedToCoreWithCaps d caps b1 b2 b3 h).evs.head? =
        some (Ev.allocInternal sizeofStaticTask)) ∧
      ((xTaskCreatePinnedToCoreWithCaps d caps b1 b2 b3 h).evs[1]? =
        some (Ev.allocCaps d caps)) ∧
      ((xQueueCreateWithCaps len isz caps b1 b2 b3 h).evs.head? =
        some (Ev.allocCaps sizeofStaticQueue caps)) ∧
      ((xSemaphoreCreateGenericWithCaps qt caps b1 b3 h).evs.head? =
        some (Ev.allocCaps sizeofStaticSemaphore caps)) ∧
      ((xStreamBufferGenericCreateWithCaps bsz caps msg b1 b2 b3 h).evs.head? =
        some (Ev.allocCaps sizeofStaticStreamBuffer caps)) ∧
      ((xEventGroupCreateWithCaps caps b1 b3 h).evs.head? =
        some (Ev.allocCaps sizeofStaticEventGroup caps)) ∧
      Ev.isAllocWithCaps caps (Ev.allocInternal sizeofStaticTask) = false := by
  intro d len isz qt bsz caps msg b1 b2 b3 h
  refine ⟨?_, ?_, ?_, ?_, ?_, ?_, by simp [Ev.isAllocWithCaps]⟩ <;>
    cases b1 <;> cases b2 <;> cases b3 <;>
      simp [xTaskCreatePinnedToCoreWithCaps, xQueueCreateWithCaps,
        xSemaphoreCreateGenericWithCaps, xStreamBufferGenericCreateWithCaps,
        xEventGroupCreateWithCaps, Heap.alloc] <;>
      (repeat' split) <;> simp

/-- Claim C2: the branch structure of `vTaskDeleteWithCaps` selects exactly
one of the three deletion paths for every combination of target, caller,
observed run state and core count: State A when the target is `NULL` or the
caller, State B exactly when that fails, the build is multi-core and the
target is observed `eRunning`, and State C in the remaining case. -/
theorem vTaskDeleteWithCaps_path_trichotomy :
    ∀ (target current : Option Nat) (state0 : TaskState) (cores : Nat),
      ((selectDeletePath target current state0 cores = DeletePath.selfDelete ↔
          (target = none ∨ target = current)) ∧
       (selectDeletePath target current state0 cores = DeletePath.crossCore ↔
          (¬(target = none ∨ target = current) ∧
            (1 < cores ∧ state0 = TaskState.eRunning))) ∧
       (selectDeletePath target current state0 cores = DeletePath.stopped ↔
          (¬(target = none ∨ target = current) ∧
            ¬(1 < cores ∧ state0 = TaskState.eRunning)))) ∧
      (((target = none ∨ target = current) ∧
          ¬(¬(target = none ∨ target = current) ∧
            (1 < cores ∧ state0 = TaskState.eRunning)) ∧
          ¬(¬(target = none ∨ target = current) ∧
            ¬(1 < cores ∧ state0 = TaskState.eRunning))) ∨
       (¬(target = none ∨ target = current) ∧
          (¬(target = none ∨ target = current) ∧
            (1 < cores ∧ state0 = TaskState.eRunning)) ∧
          ¬(¬(target = none ∨ target = current) ∧
            ¬(1 < cores ∧ state0 = TaskState.eRunning))) ∨
       ((¬(target = none ∨ target = current) ∧
            ¬(1 < cores ∧ state0 = TaskState.eRunning)) ∧
          ¬(target = none ∨ target = current) ∧
          ¬(¬(target = none ∨ target = current) ∧
            (1 < cores ∧ state0 = TaskState.eRunning)))) := by
  intro target current state0 cores
  unfold selectDeletePath
  by_cases hA : target = none ∨ target = current
  · simp [hA]
  · by_cases hB : 1 < cores ∧ state0 = TaskState.eRunning
    · simp [hA, hB]
    · simp [hA, hB]

/-- Claim C8 evidence: invoked on a live stream buffer (the
non-message-buffer kind), `vStreamBufferGenericDeleteWithCaps` destroys the
object with `vSemaphoreDelete` — the queue/semaphore destructor — and never
calls the stream-buffer destructor, contradicting its own comment that it
deletes the stream buffer. -/
theorem streamBufferDelete_uses_semaphore_destructor :
    ((vStreamBufferGenericDeleteWithCaps false true (Ptr.block 1) (Ptr.block 0)
        Heap.empty).2.contains (Ev.destroy ObjDtor.semaphoreDelete) = true) ∧
    ((vStreamBufferGenericDeleteWithCaps false true (Ptr.block 1) (Ptr.block 0)
        Heap.empty).2.contains (Ev.destroy ObjDtor.streamBufferDelete) = false) := by
  decide

/-- Claim C5: for each two-allocation kind — task, queue with nonzero item
size, stream/message buffer — if the second (data/stack) allocation fails
after the first (control-block) allocation succeeded, the wrapper frees the
first allocation and reports failure, leaving the heap exactly as it was. -/
theorem secondAllocFailure_rolls_back :
    ∀ (d len isz bsz caps : Nat) (ctorOk msg : Bool) (h : Heap),
      ((xTaskCreatePinnedToCoreWithCaps d caps true false ctorOk h).ok = false ∧
       (xTaskCreatePinnedToCoreWithCaps d caps true false ctorOk h).heap.live = h.live) ∧
      (0 < isz →
        ((xQueueCreateWithCaps len isz caps true false ctorOk h).ok = false ∧
         (xQueueCreateWithCaps len isz caps true false ctorOk h).heap.live = h.live)) ∧
      ((xStreamBufferGenericCreateWithCaps bsz caps msg true false ctorOk h).ok = false ∧
       (xStreamBufferGenericCreateWithCaps bsz caps msg true false ctorOk h).heap.live = h.live) := by
  intro d len isz bsz caps ctorOk msg h
  refine ⟨?_, fun hpos => ?_, ?_⟩
  · simp [xTaskCreatePinnedToCoreWithCaps, Heap.alloc, Heap.free]
  · simp [xQueueCreateWithCaps, Heap.alloc, Heap.free,
      Nat.pos_iff_ne_zero.mp hpos, hpos]
  · simp [xStreamBufferGenericCreateWithCaps, Heap.alloc, Heap.free]

/-- Witness for `secondAllocFailure_rolls_back` at a concrete input: a
10-by-4 queue under mask 2 whose storage allocation fails is rolled back. -/
theorem secondAllocFailure_rolls_back_witness :
    (xQueueCreateWithCaps 10 4 2 true false true Heap.empty).ok = false ∧
    (xQueueCreateWithCaps 10 4 2 true false true Heap.empty).heap.live = Heap.empty.live :=
  (secondAllocFailure_rolls_back 2048 10 4 16 2 true false Heap.empty).2.1 (by decide)

/-- Claim C6: for every object kind, when every required allocation succeeds
but the static constructor returns a `NULL` handle, the wrapper frees every
buffer it allocated and reports failure, leaving the heap exactly as it
was. -/
theorem ctorFailure_frees_all :
    ∀ (d len isz qt bsz caps : Nat) (msg : Bool) (h : Heap),
      ((xTaskCreatePinnedToCoreWithCaps d caps true true false h).ok = false ∧
       (xTaskCreatePinnedToCoreWithCaps d caps true true false h).heap.live = h.live) ∧
      ((xQueueCreateWithCaps len isz caps true true false h).ok = false ∧
       (xQueueCreateWithCaps len isz caps true true false h).heap.live = h.live) ∧
      ((xSemaphoreCreateGenericWithCaps qt caps true false h).ok = false ∧
       (xSemaphoreCreateGenericWithCaps qt caps true false h).heap.live = h.live) ∧
      ((xStreamBufferGenericCreateWithCaps bsz caps msg true true false h).ok = false ∧
       (xStreamBufferGenericCreateWithCaps bsz caps msg true true false h).heap.live = h.live) ∧
      ((xEventGroupCreateWithCaps caps true false h).ok = false ∧
       (xEventGroupCreateWithCaps caps true false h).heap.live = h.live) := by
  intro d len isz qt bsz caps msg h
  refine ⟨?_, ?_, ?_, ?_, ?_⟩ <;>
    simp [xTaskCreatePinnedToCoreWithCaps, xQueueCreateWithCaps,
      xSemaphoreCreateGenericWithCaps, xStreamBufferGenericCreateWithCaps,
      xEventGroupCreateWithCaps, Heap.alloc, Heap.free] <;>
    (repeat' split) <;> simp_all [Heap.free]

/-- Claim C7: in every generic deletion wrapper the introspection call is
the first recorded call; when introspection fails the wrapper hits a fatal
`configASSERT` (no destructor call, no free, no normal return), and when it
succeeds the kernel destructor runs before any buffer is freed. -/
theorem deleteWithCaps_introspect_destroy_free_order :
    ∀ (s c p : Ptr) (h : Heap) (msg : Bool),
      (vQueueDeleteWithCaps false s c h =
        (none, [Ev.introspect, Ev.assertFail])) ∧
      (vSemaphoreDeleteWithCaps false p h =
        (none, [Ev.introspect, Ev.assertFail])) ∧
      (vStreamBufferGenericDeleteWithCaps msg false s c h =
        (none, [Ev.introspect, Ev.assertFail])) ∧
      (vEventGroupDeleteWithCaps false p h =
        (none, [Ev.introspect, Ev.assertFail])) ∧
      ((vQueueDeleteWithCaps true s c h).2 =
        [Ev.introspect, Ev.destroy ObjDtor.queueDelete,
         Ev.freeCaps c, Ev.freeCaps s]) ∧
      ((vSemaphoreDeleteWithCaps true p h).2 =
        [Ev.introspect, Ev.destroy ObjDtor.semaphoreDelete, Ev.freeCaps p]) ∧
      ((vStreamBufferGenericDeleteWithCaps msg true s c h).2 =
        [Ev.introspect,
         Ev.destroy (if msg then ObjDtor.messageBufferDelete
                     else ObjDtor.semaphoreDelete),
         Ev.freeCaps c, Ev.freeCaps s]) ∧
      ((vEventGroupDeleteWithCaps true p h).2 =
        [Ev.introspect, Ev.destroy ObjDtor.eventGroupDelete, Ev.freeCaps p]) := by
  intro s c p h msg
  cases msg <;>
    simp [vQueueDeleteWithCaps, vSemaphoreDeleteWithCaps,
      vStreamBufferGenericDeleteWithCaps, vEventGroupDeleteWithCaps]

/-- Claim C9: a zero-item-size queue, a semaphore and an event group record
exactly one allocation call on creation — the control block, under the mask
— and their deletion removes exactly that control block from the heap (the
zero-item queue deletion passes the `NULL` storage pointer to `free`, which
is a no-op). -/
theorem bufferless_kinds_single_allocation :
    ∀ (len qt caps i : Nat) (cbOk storOk ctorOk : Bool) (h : Heap),
      ((xQueueCreateWithCaps len 0 caps cbOk storOk ctorOk h).evs.filter
          (fun e => Ev.isAlloc e) = [Ev.allocCaps sizeofStaticQueue caps]) ∧
      ((xSemaphoreCreateGenericWithCaps qt caps cbOk ctorOk h).evs.filter
          (fun e => Ev.isAlloc e) = [Ev.allocCaps sizeofStaticSemaphore caps]) ∧
      ((xEventGroupCreateWithCaps caps cbOk ctorOk h).evs.filter
          (fun e => Ev.isAlloc e) = [Ev.allocCaps sizeofStaticEventGroup caps]) ∧
      ((xQueueCreateWithCaps len 0 caps true true true h).heap.live =
        h.next :: h.live) ∧
      ((xSemaphoreCreateGenericWithCaps qt caps true true h).heap.live =
        h.next :: h.live) ∧
      ((xEventGroupCreateWithCaps caps true true h).heap.live =
        h.next :: h.live) ∧
      ((vQueueDeleteWithCaps true Ptr.null (Ptr.block i) h).1 =
        some ⟨h.live.erase i, h.next⟩) ∧
      ((vSemaphoreDeleteWithCaps true (Ptr.block i) h).1 =
        some ⟨h.live.erase i, h.next⟩) ∧
      ((vEventGroupDeleteWithCaps true (Ptr.block i) h).1 =
        some ⟨h.live.erase i, h.next⟩) := by
  intro len qt caps i cbOk storOk ctorOk h
  refine ⟨?_, ?_, ?_, ?_, ?_, ?_, ?_, ?_, ?_⟩ <;>
    cases cbOk <;> cases ctorOk <;>
      simp [xQueueCreateWithCaps, xSemaphoreCreateGenericWithCaps,
        xEventGroupCreateWithCaps, vQueueDeleteWithCaps,
        vSemaphoreDeleteWithCaps, vEventGroupDeleteWithCaps,
        Heap.alloc, Heap.free, Ev.isAlloc]

/-- Claim C3: on the self-delete path, the call never returns normally to
the caller.  When the clean-up task cannot be created the process aborts;
when it is created but the self-suspension hands control back the process
aborts; on the success path the caller suspends itself and is never
resumed by this procedure. -/
theorem selfDelete_never_returns (env : TaskDelEnv)
    (hISR : env.inISR = false) (hcur : env.current ≠ none)
    (hA : env.target = none ∨ env.target = env.current) :
    ((vTaskDeleteWithCaps env).outcome ≠ DOutcome.returned) ∧
    (env.createOk = false →
      vTaskDeleteWithCaps env =
        ⟨DOutcome.aborted,
          [TEv.assertNotISR, TEv.assertCurrentNonNull,
           TEv.createCleanupTask, TEv.abortProc]⟩) ∧
    (env.createOk = true → env.suspendEffective = false →
      vTaskDeleteWithCaps env =
        ⟨DOutcome.aborted,
          [TEv.assertNotISR, TEv.assertCurrentNonNull,
           TEv.createCleanupTask, TEv.suspendTarget, TEv.abortProc]⟩) ∧
    (env.createOk = true → env.suspendEffective = true →
      vTaskDeleteWithCaps env =
        ⟨DOutcome.neverReturns,
          [TEv.assertNotISR, TEv.assertCurrentNonNull,
           TEv.createCleanupTask, TEv.suspendTarget]⟩) := by
  cases hc : env.createOk <;> cases hs : env.suspendEffective <;>
    simp [vTaskDeleteWithCaps, hISR, hcur, hA, hc, hs]

/-- Witness for `selfDelete_never_returns`: a task deleting itself (target
`NULL`) with the clean-up task created and the suspension effective ends in
the permanently suspended outcome, not a normal return. -/
theorem selfDelete_never_returns_witness :
    (vTaskDeleteWithCaps
      ⟨false, some 0, none, 1, fun _ => TaskState.eSuspended, true, true,
        true, Ptr.null, Ptr.null, 0⟩).outcome ≠ DOutcome.returned :=
  (selfDelete_never_returns
    ⟨false, some 0, none, 1, fun _ => TaskState.eSuspended, true, true,
      true, Ptr.null, Ptr.null, 0⟩ rfl (by decide) (Or.inl rfl)).1

/-- Claim C4: on the cross-core path (multi-core, target observed
`eRunning`, target not the caller), the procedure suspends the target, then
spin-waits; when the spin-wait exits at observation index `k` the target
was observed not `eRunning` there, the spin-wait itself performed only
reads and yields, and only after it do the introspection, the destruction
and the two frees occur, in that order, with no further run-state read. -/
theorem crossCore_confirm_before_destroy (env : TaskDelEnv) (k : Nat)
    (evs : List TEv)
    (hISR : env.inISR = false) (hcur : env.current ≠ none)
    (hnA : ¬(env.target = none ∨ env.target = env.current))
    (hB : 1 < env.cores ∧ env.obs 0 = TaskState.eRunning)
    (hspin : spinLoop env.obs 1 env.fuel = (some k, evs))
    (hintro : env.introspectOk = true)
    (hstack : env.stackBuf ≠ Ptr.null) (htcb : env.tcbBuf ≠ Ptr.null) :
    vTaskDeleteWithCaps env =
      ⟨DOutcome.returned,
        [TEv.assertNotISR, TEv.assertCurrentNonNull, TEv.readState,
         TEv.suspendTarget] ++ evs
          ++ [TEv.getStaticBuffers, TEv.taskDestroy,
              TEv.freeStack, TEv.freeTCB]⟩ ∧
    env.obs k ≠ TaskState.eRunning ∧
    (∀ e ∈ evs, e = TEv.readState ∨ e = TEv.yieldCore) := by
  have hs := spinLoop_exit_not_running env.fuel 1 k env.obs evs hspin
  refine ⟨?_, hs.1, hs.2⟩
  simp [vTaskDeleteWithCaps, hISR, hcur, hnA, hB, hspin, hintro, hstack, htcb]

/-- Witness for `crossCore_confirm_before_destroy`: caller task 0 on a
dual-core build deletes task 1, which is seen running for one spin
iteration and then suspended; the confirming read precedes introspection,
destruction and the frees. -/
theorem crossCore_confirm_before_destroy_witness :
    vTaskDeleteWithCaps
      ⟨false, some 0, some 1, 2,
        fun i => if i ≤ 1 then TaskState.eRunning else TaskState.eSuspended,
        true, true, true, Ptr.block 5, Ptr.block 6, 3⟩ =
      ⟨DOutcome.returned,
        [TEv.assertNotISR, TEv.assertCurrentNonNull, TEv.readState,
         TEv.suspendTarget]
          ++ [TEv.readState, TEv.yieldCore, TEv.readState]
          ++ [TEv.getStaticBuffers, TEv.taskDestroy,
              TEv.freeStack, TEv.freeTCB]⟩ :=
  (crossCore_confirm_before_destroy
    ⟨false, some 0, some 1, 2,
      fun i => if i ≤ 1 then TaskState.eRunning else TaskState.eSuspended,
      true, true, true, Ptr.block 5, Ptr.block 6, 3⟩
    2 [TEv.readState, TEv.yieldCore, TEv.readState]
    rfl (by decide) (by decide) (by decide) (by decide) rfl (by decide)
    (by decide)).1

/-- Every call with the entry assertions passing produces an event list
beginning with the two assertions. -/
theorem vTaskDeleteWithCaps_events_shape (env : TaskDelEnv)
    (h1 : env.inISR = false) (h2 : ¬env.current = none) :
    ∃ tail, (vTaskDeleteWithCaps env).events =
      TEv.assertNotISR :: TEv.assertCurrentNonNull :: tail := by
  unfold vTaskDeleteWithCaps
  rw [if_neg (by simp [h1]), if_neg h2]
  dsimp only
  repeat (first | exact ⟨_, rfl⟩ | split)

/-- Claim C10: every call to `vTaskDeleteWithCaps` performs the
not-in-interrupt assertion first and the current-handle assertion second;
a failing assertion aborts the process, and no run-state read, suspension,
destruction or free ever occurs before the two assertions. -/
theorem asserts_precede_state_reads (env : TaskDelEnv) :
    ((vTaskDeleteWithCaps env).events.head? = some TEv.assertNotISR) ∧
    (env.inISR = true →
      vTaskDeleteWithCaps env =
        ⟨DOutcome.aborted, [TEv.assertNotISR, TEv.abortProc]⟩) ∧
    (env.inISR = false →
      (vTaskDeleteWithCaps env).events.take 2 =
        [TEv.assertNotISR, TEv.assertCurrentNonNull]) ∧
    (env.inISR = false → env.current = none →
      vTaskDeleteWithCaps env =
        ⟨DOutcome.aborted,
          [TEv.assertNotISR, TEv.assertCurrentNonNull, TEv.abortProc]⟩) ∧
    (((vTaskDeleteWithCaps env).events.take 2).all
        (fun e => !(dangerousT e)) = true) := by
  by_cases h1 : env.inISR = true
  · simp [vTaskDeleteWithCaps, h1, dangerousT]
  · have h1f : env.inISR = false := by simpa using h1
    by_cases h2 : env.current = none
    · simp [vTaskDeleteWithCaps, h1f, h2, dangerousT]
    · obtain ⟨tail, htail⟩ := vTaskDeleteWithCaps_events_shape env h1f h2
      refine ⟨?_, ?_, ?_, ?_, ?_⟩
      · simp [htail]
      · intro hbad; rw [hbad] at h1f; cases h1f
      · intro _; simp [htail]
      · intro _ hbad; exact absurd hbad h2
      · simp [htail, dangerousT]

/-- Witness for `asserts_precede_state_reads`: called from an interrupt
context, the procedure aborts immediately after the first assertion. -/
theorem asserts_precede_state_reads_witness :
    vTaskDeleteWithCaps
      ⟨true, some 0, none, 1, fun _ => TaskState.eRunning, true, true,
        true, Ptr.null, Ptr.null, 0⟩ =
      ⟨DOutcome.aborted, [TEv.assertNotISR, TEv.abortProc]⟩ :=
  (asserts_precede_state_reads
    ⟨true, some 0, none, 1, fun _ => TaskState.eRunning, true, true,
      true, Ptr.null, Ptr.null, 0⟩).2.1 rfl

end IdfAdditions
